import Mathlib

/-!
Verification of `src/rosella.py` (a macOS status-bar dictation utility)
against its natural-language specification.

Shallow embedding.  The spec's vocabulary maps onto the source as follows:
* `SessionState`: `Idle` = `State.ready`, `Busy` = `State.processing`,
  `Recording` = `State.recording` (the `State` `StrEnum` of the source).
* Controller = `StatusBarDelegate` (`_update_state`, `_start_recording_flow`,
  `_finish_recording_flow`, `_paste_to_clipboard`).
* Worker = `Scribe` (`init_model`, `start`, `record`, `stop`).

Both the click handler (`statusItemClicked_` / `_update_state`) and the
flows scheduled through `AppHelper.callAfter` run serialized on the single
Cocoa main thread; the only other thread is the `record` thread spawned by
`Scribe.start`.  So an execution is a sequence of atomic main-thread events:
`toggle` (a click) and `runNext` (the next scheduled flow callback), while
the behaviour of the record thread for a session (device open, number of
chunks captured before `capture` goes `False`, transcription outcome) is
environment data `SessionEnv`.  UI-icon calls (`setImage_`) are elided;
the status-bar `button` is modelled as always present.
-/

namespace Rosella

/-- Module constant `CHUNK = 1024` (frames per `stream.read`). -/
def CHUNK : Nat := 1024

/-- Module constant `CHANNELS = 1`. -/
def CHANNELS : Nat := 1

/-- `p.get_sample_size(pyaudio.paInt16) = 2` bytes per sample. -/
def SAMPLE_WIDTH : Nat := 2

/-- Bytes appended to the wav file per loop iteration:
`stream.read(CHUNK)` returns exactly `CHUNK` frames, each
`SAMPLE_WIDTH * CHANNELS` bytes (it raises on overflow, never returns a
partial chunk). -/
def chunkBytes : Nat := CHUNK * SAMPLE_WIDTH * CHANNELS

/-- Size in bytes of the header the `wave` module writes for this
mono/16-bit/44100 configuration; `temp_path.stat().st_size` counts it. -/
def WAV_HEADER : Nat := 44

/-- `temp_path.stat().st_size` after the capture loop wrote `chunks`
whole chunks. -/
def fileSize (chunks : Nat) : Nat := WAV_HEADER + chunks * chunkBytes

/-- The `State` StrEnum of the source (`ready` / `processing` /
`recording`); the spec calls these `Idle` / `Busy` / `Recording`. -/
inductive State where
  | ready
  | processing
  | recording
  deriving DecidableEq, Repr

/-- Outcome of `from_pretrained(...)` inside `Scribe.init_model`:
either it returns a model, or it raises. -/
inductive LoadOutcome where
  | ok
  | fails
  deriving DecidableEq, Repr

/-- Outcome of `p.open(..., input=True)` inside `Scribe.record`:
either the input stream opens, or the device is unavailable and it
raises. -/
inductive DeviceOutcome where
  | ok
  | unavailable
  deriving DecidableEq, Repr

/-- Outcome of `self.model.transcribe(temp_path)`: either it returns an
object whose `.text` is `text`, or it raises an internal error. -/
inductive TranscribeOutcome where
  | ok (text : String)
  | fails
  deriving DecidableEq, Repr

/-- The environment-determined data of one session: how the model load
would go if attempted, whether the audio device opens, how many whole
chunks the capture loop reads before it observes `capture = False`, and
what the transcription call would yield. -/
structure SessionEnv where
  load : LoadOutcome
  device : DeviceOutcome
  chunks : Nat
  transcription : TranscribeOutcome
  deriving DecidableEq, Repr

/-- What one run of the `Scribe.record` thread leaves behind:
the value of `self.result` after the thread has terminated,
whether `self.model.transcribe` was invoked, and whether the thread
died by an uncaught exception (Python confines such an exception to the
thread; the process survives and `join()` still returns). -/
structure RecordOutcome where
  resultField : Option String
  modelInvoked : Bool
  crashed : Bool
  deriving DecidableEq, Repr

/-- `Scribe.record`, given the session environment and the value of
`self.result` on entry (`record` never reads it, but an exception path
leaves it untouched):
* `p.open` raises when the device is unavailable — the thread dies,
  `self.result` keeps its previous value, transcription never runs;
* otherwise the loop writes `env.chunks` whole chunks; then
  `if temp_path.stat().st_size > CHUNK:` transcribe — on success
  `self.result = result.text`, on an internal error the thread dies with
  `self.result` untouched;
* `else:` (sample too short) `self.result = None`. -/
def record (env : SessionEnv) (prevResult : Option String) : RecordOutcome :=
  match env.device with
  | .unavailable => ⟨prevResult, false, true⟩
  | .ok =>
    if fileSize env.chunks > CHUNK then
      match env.transcription with
      | .ok t => ⟨some t, true, false⟩
      | .fails => ⟨prevResult, true, true⟩
    else
      ⟨none, false, false⟩

/-- The atomic actions of the `record` thread, in program order, used for
the temporal claims: open the input stream, one `wf.writeframes`
per captured chunk, the close/flush of the wav file when the
`with wave.open(...)` block exits, the `self.model.transcribe` call, the
assignment to `self.result`, and thread termination (the point at which
`self.record_thread.join()` can return). -/
inductive Act where
  | openDevice
  | writeChunk
  | closeSink
  | transcribeCall
  | setResult
  | threadExit
  deriving DecidableEq, Repr

/-- The action trace of one run of `Scribe.record`.  When the device is
unavailable, `p.open` raises and the thread exits at once.  Otherwise all
writes happen inside the `with wave.open(...)` block, which closes and
flushes the file before the size check and the transcription call. -/
def recordTrace (env : SessionEnv) : List Act :=
  match env.device with
  | .unavailable => [Act.openDevice, Act.threadExit]
  | .ok =>
    Act.openDevice ::
      (List.replicate env.chunks Act.writeChunk ++
        Act.closeSink ::
          (if fileSize env.chunks > CHUNK then
            match env.transcription with
            | .ok _ => [Act.transcribeCall, Act.setResult, Act.threadExit]
            | .fails => [Act.transcribeCall, Act.threadExit]
          else
            [Act.setResult, Act.threadExit]))

/-- `Scribe.stop` joins the record thread, so the join completes only
after the thread's last action: its position is the length of the
thread's trace. -/
def joinIndex (env : SessionEnv) : Nat := (recordTrace env).length

/-- The initial segment of the record-thread trace up to (excluding) the
close of the wav file: the stream open and the capture-loop writes. -/
def capturePhase (env : SessionEnv) : List Act :=
  Act.openDevice :: List.replicate env.chunks Act.writeChunk

/-- The actions following the close of the wav file: the size check's
branch (transcription and/or the `self.result` assignment) and thread
termination. -/
def finishPhase (env : SessionEnv) : List Act :=
  if fileSize env.chunks > CHUNK then
    match env.transcription with
    | .ok _ => [Act.transcribeCall, Act.setResult, Act.threadExit]
    | .fails => [Act.transcribeCall, Act.threadExit]
  else
    [Act.setResult, Act.threadExit]

/-- The two flow callbacks `_update_state` hands to `AppHelper.callAfter`. -/
inductive Flow where
  | startFlow
  | finishFlow
  deriving DecidableEq, Repr

/-- The state visible to the main thread: the controller's `self.state`;
the queue of flow callbacks scheduled via `callAfter` and not yet run;
`Scribe.model` (`Option Unit` mirroring the `is None` check); plus three
observation fields that count externally visible effects: how many times
`from_pretrained` was invoked, how many record threads have been started
and not yet joined, and the list of strings passed to
`_paste_to_clipboard` (clipboard `setText`), in order. -/
structure Sys where
  state : State
  pending : List Flow
  model : Option Unit
  loadCount : Nat
  sessions : Nat
  result : Option String
  pasted : List String
  deriving DecidableEq, Repr

/-- State after `applicationDidFinishLaunching_`: `self.state =
State.ready`, `Scribe.__init__` sets `model = None`, `result = None`,
nothing scheduled, nothing recorded or pasted. -/
def init : Sys :=
  { state := .ready
    pending := []
    model := none
    loadCount := 0
    sessions := 0
    result := none
    pasted := [] }

/-- `_update_state` (reached from `statusItemClicked_`):
`ready` schedules `_start_recording_flow` and moves to `processing`;
`recording` schedules `_finish_recording_flow` and moves to `processing`;
`processing` matches neither `if` branch — the click is dropped. -/
def toggle (s : Sys) : Sys :=
  match s.state with
  | .ready => { s with state := .processing, pending := s.pending ++ [Flow.startFlow] }
  | .recording => { s with state := .processing, pending := s.pending ++ [Flow.finishFlow] }
  | .processing => s

/-- Run the next scheduled flow callback (the head of the `callAfter`
queue), with the record thread's behaviour drawn from `env`.

`_start_recording_flow`: `if self.scribe.model is None:
self.scribe.init_model()` — if `from_pretrained` raises, the exception
propagates out of the callback and the remaining lines never run (state
keeps its value, no thread is started); otherwise the flow sets
`self.state = State.recording` and `self.scribe.start()` spawns the
record thread.

`_finish_recording_flow`: `result = self.scribe.stop()` joins the record
thread (so `self.result` now holds what `record` left there);
`if result is not None:` paste it; then `self.state = State.ready`. -/
def runNext (env : SessionEnv) (s : Sys) : Sys :=
  match s.pending with
  | [] => s
  | Flow.startFlow :: rest =>
    match s.model with
    | some _ =>
      { s with pending := rest, state := .recording, sessions := s.sessions + 1 }
    | none =>
      match env.load with
      | .ok =>
        { s with pending := rest, model := some (), loadCount := s.loadCount + 1,
                 state := .recording, sessions := s.sessions + 1 }
      | .fails =>
        { s with pending := rest, loadCount := s.loadCount + 1 }
  | Flow.finishFlow :: rest =>
    let out := record env s.result
    { s with pending := rest
             sessions := s.sessions - 1
             result := out.resultField
             pasted :=
               match out.resultField with
               | some t => s.pasted ++ [t]
               | none => s.pasted
             state := .ready }

/-- Reachable main-thread states: any interleaving of clicks and
scheduled-flow executions from the launch state. -/
inductive Reach : Sys → Prop where
  | base : Reach init
  | tog {s : Sys} : Reach s → Reach (toggle s)
  | run {s : Sys} (env : SessionEnv) : Reach s → Reach (runNext env s)

/-- The inductive invariant of the controller: the state, the scheduled
queue and the number of live record threads move in lock-step; the fifth
disjunct is the stranded state after a failed model load. -/
def Inv (s : Sys) : Prop :=
  ((s.state = .ready ∧ s.pending = [] ∧ s.sessions = 0)
    ∨ (s.state = .processing ∧ s.pending = [Flow.startFlow] ∧ s.sessions = 0)
    ∨ (s.state = .recording ∧ s.pending = [] ∧ s.sessions = 1)
    ∨ (s.state = .processing ∧ s.pending = [Flow.finishFlow] ∧ s.sessions = 1)
    ∨ (s.state = .processing ∧ s.pending = [] ∧ s.sessions = 0 ∧ s.model = none))
  ∧ (s.model = none →
      s.loadCount = 0 ∨ (s.loadCount = 1 ∧ s.state = .processing ∧ s.pending = []))
  ∧ (s.model.isSome = true → s.loadCount = 1)

theorem inv_init : Inv init := by
  refine ⟨Or.inl ⟨rfl, rfl, rfl⟩, fun _ => Or.inl rfl, fun h => ?_⟩
  simp [init] at h

theorem inv_toggle {s : Sys} (h : Inv s) : Inv (toggle s) := by
  obtain ⟨hst, hmn, hms⟩ := h
  rcases hst with ⟨h1, h2, h3⟩ | ⟨h1, h2, h3⟩ | ⟨h1, h2, h3⟩ | ⟨h1, h2, h3⟩ | ⟨h1, h2, h3, h4⟩ <;>
    simp only [toggle, h1] <;>
    refine ⟨?_, ?_, ?_⟩ <;>
    simp_all

theorem inv_run {s : Sys} (env : SessionEnv) (h : Inv s) : Inv (runNext env s) := by
  obtain ⟨hst, hmn, hms⟩ := h
  rcases hst with ⟨h1, h2, h3⟩ | ⟨h1, h2, h3⟩ | ⟨h1, h2, h3⟩ | ⟨h1, h2, h3⟩ | ⟨h1, h2, h3, h4⟩
  · simp only [runNext, h2]
    exact ⟨Or.inl ⟨h1, h2, h3⟩, hmn, hms⟩
  · cases hmdl : s.model with
    | some u =>
      simp only [runNext, h2, hmdl]
      refine ⟨Or.inr (Or.inr (Or.inl ⟨rfl, rfl, by simp [h3]⟩)), ?_, ?_⟩ <;> simp_all
    | none =>
      cases hld : env.load with
      | ok =>
        simp only [runNext, h2, hmdl, hld]
        refine ⟨Or.inr (Or.inr (Or.inl ⟨rfl, rfl, by simp [h3]⟩)), ?_, ?_⟩
        · intro hn; simp at hn
        · intro _
          rcases hmn hmdl with h0 | ⟨_, _, hpe⟩
          · simp [h0]
          · rw [h2] at hpe; simp at hpe
      | fails =>
        simp only [runNext, h2, hmdl, hld]
        refine ⟨Or.inr (Or.inr (Or.inr (Or.inr ⟨h1, rfl, h3, rfl⟩))), ?_, ?_⟩
        · intro _
          rcases hmn hmdl with h0 | ⟨_, _, hpe⟩
          · exact Or.inr ⟨by simp [h0], h1, rfl⟩
          · rw [h2] at hpe; simp at hpe
        · intro hsome; simp at hsome
  · simp only [runNext, h2]
    exact ⟨Or.inr (Or.inr (Or.inl ⟨h1, h2, h3⟩)), hmn, hms⟩
  · simp only [runNext, h2]
    refine ⟨Or.inl ⟨rfl, rfl, by simp [h3]⟩, ?_, ?_⟩
    · intro hn
      rcases hmn hn with h0 | ⟨_, _, hpe⟩
      · simp [h0]
      · rw [h2] at hpe; simp at hpe
    · intro hsome; simp_all
  · simp only [runNext, h2]
    exact ⟨Or.inr (Or.inr (Or.inr (Or.inr ⟨h1, h2, h3, h4⟩))), hmn, hms⟩

/-- Every reachable state satisfies the inductive invariant. -/
theorem reach_inv {s : Sys} (h : Reach s) : Inv s := by
  induction h with
  | base => exact inv_init
  | tog _ ih => exact inv_toggle ih
  | run env _ ih => exact inv_run env ih

/-- The edges of the state diagram in §4.1 of the spec (`Idle` = `ready`,
`Busy` = `processing`, `Recording` = `recording`), together with "no
move" (`a = b`), which subsumes the explicit `Busy --toggle--> Busy`
self-loop. -/
def AllowedEdge (a b : State) : Prop :=
  (a = .ready ∧ b = .processing)
    ∨ (a = .processing ∧ b = .recording)
    ∨ (a = .recording ∧ b = .processing)
    ∨ (a = .processing ∧ b = .ready)
    ∨ a = b

/-- A happy-path session environment: model load succeeds, the device
opens, one chunk is captured, transcription yields `"hello world"`. -/
def envHello : SessionEnv := ⟨.ok, .ok, 1, .ok "hello world"⟩

/-- A session environment whose transcription yields the empty string. -/
def envEmpty : SessionEnv := ⟨.ok, .ok, 1, .ok ""⟩

/-- A session environment in which the capture loop reads no complete
chunk before being stopped. -/
def envShort : SessionEnv := ⟨.ok, .ok, 0, .ok "hello world"⟩

/-- A session environment in which the audio input device cannot be
opened. -/
def envNoDev : SessionEnv := ⟨.ok, .unavailable, 0, .ok "hello world"⟩

/-- A session environment in which `from_pretrained` raises. -/
def envLoadFail : SessionEnv := ⟨.fails, .ok, 1, .ok "hello world"⟩

/-- A session environment in which the transcription call raises an
internal error after one captured chunk. -/
def envCrash : SessionEnv := ⟨.ok, .ok, 1, .fails⟩

/-- The system after one complete successful session transcribing
`"hello world"`: click, start flow, click, finish flow. -/
def sAfterOne : Sys := runNext envHello (toggle (runNext envHello (toggle init)))

/-- `sAfterOne` continued by a second session whose transcription
raises: click, start flow, click, finish flow. -/
def sAfterTwo : Sys := runNext envCrash (toggle (runNext envCrash (toggle sAfterOne)))

/-- C1: from every reachable state, a click (`toggle`) and a scheduled
flow execution (`runNext`) move the session state only along the §4.1
edges `Idle→Busy→Recording`, `Recording→Busy→Idle`, `Busy→Busy`; and a
click that arrives while the state is `Busy` (`processing`) leaves the
whole system — in particular the number of live recording sessions —
unchanged. -/
theorem toggle_moves_along_edges (s : Sys) (env : SessionEnv) (h : Reach s) :
    AllowedEdge s.state (toggle s).state ∧
    AllowedEdge s.state (runNext env s).state ∧
    (s.state = State.processing →
      toggle s = s ∧ (toggle s).sessions = s.sessions) := by
  obtain ⟨hst, -, -⟩ := reach_inv h
  refine ⟨?_, ?_, ?_⟩
  · rcases hs : s.state with _ | _ | _ <;> simp [toggle, hs, AllowedEdge]
  · rcases hst with ⟨h1, h2, h3⟩ | ⟨h1, h2, h3⟩ | ⟨h1, h2, h3⟩ | ⟨h1, h2, h3⟩ | ⟨h1, h2, h3, h4⟩
    · simp [runNext, h2, AllowedEdge]
    · cases hmdl : s.model with
      | some u => simp [runNext, h2, hmdl, AllowedEdge, h1]
      | none =>
        cases hld : env.load with
        | ok => simp [runNext, h2, hmdl, hld, AllowedEdge, h1]
        | fails => simp [runNext, h2, hmdl, hld, AllowedEdge]
    · simp [runNext, h2, AllowedEdge]
    · simp [runNext, h2, AllowedEdge, h1]
    · simp [runNext, h2, AllowedEdge]
  · intro hp
    simp [toggle, hp]

/-- Witness for `toggle_moves_along_edges` at the state reached by one
click from launch (which is in `processing`, so the `Busy` no-op clause
is exercised). -/
theorem toggle_moves_along_edges_witness :
    AllowedEdge (toggle init).state (toggle (toggle init)).state ∧
    AllowedEdge (toggle init).state (runNext envHello (toggle init)).state ∧
    ((toggle init).state = State.processing →
      toggle (toggle init) = toggle init ∧
      (toggle (toggle init)).sessions = (toggle init).sessions) :=
  toggle_moves_along_edges (toggle init) envHello (Reach.tog Reach.base)

/-- C2: in every reachable state at most one record thread is live, and
whenever a `_start_recording_flow` is about to run (it heads the
scheduled queue) no record thread is live — a new session is never
started while a previous one is still alive, for every interleaving of
clicks and flow executions. -/
theorem at_most_one_session (s : Sys) (h : Reach s) :
    s.sessions ≤ 1 ∧
    ∀ rest : List Flow, s.pending = Flow.startFlow :: rest → s.sessions = 0 := by
  obtain ⟨hst, -, -⟩ := reach_inv h
  rcases hst with ⟨h1, h2, h3⟩ | ⟨h1, h2, h3⟩ | ⟨h1, h2, h3⟩ | ⟨h1, h2, h3⟩ | ⟨h1, h2, h3, h4⟩ <;>
    exact ⟨by simp [h3], fun rest hrest => by
      rw [h2] at hrest
      first
      | exact h3
      | simp at hrest⟩

/-- Witness for `at_most_one_session` at the state after one click,
where a start flow heads the queue. -/
theorem at_most_one_session_witness :
    (toggle init).sessions ≤ 1 ∧ (toggle init).sessions = 0 :=
  ⟨(at_most_one_session (toggle init) (Reach.tog Reach.base)).1,
   (at_most_one_session (toggle init) (Reach.tog Reach.base)).2 [] rfl⟩

/-- C8: in every reachable state `from_pretrained` has been invoked at
most once, and once `Scribe.model` is set no flow execution ever invokes
it again or replaces the loaded instance. -/
theorem model_loaded_once (s : Sys) (env : SessionEnv) (h : Reach s) :
    s.loadCount ≤ 1 ∧
    (s.model.isSome = true →
      (runNext env s).loadCount = s.loadCount ∧ (runNext env s).model = s.model) := by
  obtain ⟨-, hmn, hms⟩ := reach_inv h
  constructor
  · cases hmdl : s.model with
    | some u => simp [hms (by simp [hmdl])]
    | none =>
      rcases hmn hmdl with h0 | ⟨h1, -, -⟩
      · simp [h0]
      · simp [h1]
  · intro hsome
    cases hp : s.pending with
    | nil => simp [runNext, hp]
    | cons f rest =>
      cases f with
      | startFlow =>
        cases hmdl : s.model with
        | some u => simp [runNext, hp, hmdl]
        | none => rw [hmdl] at hsome; simp at hsome
      | finishFlow => simp [runNext, hp]

/-- Witness for `model_loaded_once` at the state after a completed start
flow, where the model is loaded. -/
theorem model_loaded_once_witness :
    (runNext envHello (toggle init)).loadCount ≤ 1 ∧
    ((runNext envHello (toggle init)).model.isSome = true →
      (runNext envHello (runNext envHello (toggle init))).loadCount
          = (runNext envHello (toggle init)).loadCount ∧
      (runNext envHello (runNext envHello (toggle init))).model
          = (runNext envHello (toggle init)).model) :=
  model_loaded_once (runNext envHello (toggle init)) envHello
    (Reach.run envHello (Reach.tog Reach.base))

/-- With at least one captured chunk, the wav file exceeds the `CHUNK`
threshold of the size check (header and one chunk already make
`44 + 2048` bytes). -/
theorem fileSize_gt_chunk {n : Nat} (h : 1 ≤ n) : fileSize n > CHUNK := by
  simp only [fileSize, WAV_HEADER, chunkBytes, CHUNK, SAMPLE_WIDTH, CHANNELS]
  omega

/-- `Scribe.record` when the device opens, at least one chunk is
captured, and the transcription call raises: the thread dies with
`self.result` untouched. -/
theorem record_transcribe_fails {env : SessionEnv} (prev : Option String)
    (hd : env.device = DeviceOutcome.ok)
    (ht : env.transcription = TranscribeOutcome.fails)
    (hc : 1 ≤ env.chunks) :
    record env prev = ⟨prev, true, true⟩ := by
  simp [record, hd, ht, fileSize_gt_chunk hc]

/-- C6: in a session whose captured audio is shorter than one chunk
(the loop wrote fewer bytes than one `stream.read` delivers), the size
check fails, so `self.result` is set to `None`, `transcribe` is never
invoked, and the finish flow does not touch the clipboard. -/
theorem short_sample_no_result (env : SessionEnv) (s : Sys) (rest : List Flow)
    (hdev : env.device = DeviceOutcome.ok)
    (hshort : env.chunks * chunkBytes < chunkBytes)
    (hp : s.pending = Flow.finishFlow :: rest) :
    (record env s.result).resultField = none ∧
    (record env s.result).modelInvoked = false ∧
    (runNext env s).pasted = s.pasted := by
  have hz : env.chunks = 0 := by
    simp only [chunkBytes, CHUNK, SAMPLE_WIDTH, CHANNELS] at hshort
    omega
  have hfs : ¬ fileSize env.chunks > CHUNK := by
    simp only [hz, fileSize, WAV_HEADER, chunkBytes, CHUNK, SAMPLE_WIDTH, CHANNELS]
    omega
  have hrec : record env s.result = ⟨none, false, false⟩ := by
    simp [record, hdev, hfs]
  exact ⟨by rw [hrec], by rw [hrec], by simp [runNext, hp, hrec]⟩

/-- Witness for `short_sample_no_result`: a session stopped before one
full chunk was read, finishing from the state one click after a started
recording. -/
theorem short_sample_no_result_witness :
    (record envShort (toggle (runNext envHello (toggle init))).result).resultField = none ∧
    (record envShort (toggle (runNext envHello (toggle init))).result).modelInvoked = false ∧
    (runNext envShort (toggle (runNext envHello (toggle init)))).pasted
        = (toggle (runNext envHello (toggle init))).pasted :=
  short_sample_no_result envShort (toggle (runNext envHello (toggle init))) []
    rfl (by decide) rfl

/-- C7 counterexample: a session transcribed to the empty string — the
stop result is `some ""`, which `is not None`, so the finish flow writes
the empty string to the clipboard even though the result is empty. -/
theorem empty_result_pasted :
    (record envEmpty (toggle (runNext envEmpty (toggle init))).result).resultField
        = some "" ∧
    (toggle (runNext envEmpty (toggle init))).pasted = [] ∧
    (runNext envEmpty (toggle (runNext envEmpty (toggle init)))).pasted = [""] := by
  decide

/-- C7 amended: the finish flow invokes the clipboard exactly when
`Scribe.stop` returns a value that `is not None` — the clipboard is not
written when the result is absent, but an empty-string result is
written. -/
theorem paste_iff_result_not_none (env : SessionEnv) (s : Sys) (rest : List Flow)
    (hp : s.pending = Flow.finishFlow :: rest) :
    (runNext env s).pasted = s.pasted ++ ((record env s.result).resultField).toList := by
  cases hres : (record env s.result).resultField with
  | none => simp [runNext, hp, hres]
  | some t => simp [runNext, hp, hres]

/-- Witness for `paste_iff_result_not_none` at the empty-string session. -/
theorem paste_iff_result_not_none_witness :
    (runNext envEmpty (toggle (runNext envEmpty (toggle init)))).pasted
      = (toggle (runNext envEmpty (toggle init))).pasted
          ++ ((record envEmpty (toggle (runNext envEmpty (toggle init))).result).resultField).toList :=
  paste_iff_result_not_none envEmpty (toggle (runNext envEmpty (toggle init))) [] rfl

/-- C10: the start flow (including `Scribe.start`) leaves `self.result`
untouched, and a record thread that dies by an exception before
assigning it — device cannot open, or transcription raises — leaves
`self.result` holding the value from the previous session, so the next
`Scribe.stop` returns that leftover value rather than `None`. -/
theorem start_keeps_stale_result (env : SessionEnv) (prev : Option String)
    (s : Sys) (rest : List Flow)
    (hcrash : env.device = DeviceOutcome.unavailable
      ∨ (env.device = DeviceOutcome.ok
          ∧ env.transcription = TranscribeOutcome.fails ∧ 1 ≤ env.chunks))
    (hp : s.pending = Flow.startFlow :: rest) :
    (runNext env s).result = s.result ∧
    (record env prev).crashed = true ∧
    (record env prev).resultField = prev := by
  refine ⟨?_, ?_, ?_⟩
  · cases hmdl : s.model with
    | some u => simp [runNext, hp, hmdl]
    | none => cases hld : env.load <;> simp [runNext, hp, hmdl, hld]
  · rcases hcrash with hd | ⟨hd, ht, hc⟩
    · simp [record, hd]
    · rw [record_transcribe_fails prev hd ht hc]
  · rcases hcrash with hd | ⟨hd, ht, hc⟩
    · simp [record, hd]
    · rw [record_transcribe_fails prev hd ht hc]

/-- Witness for `start_keeps_stale_result`: device-unavailable session
started from the state one click after launch, previous result
`"hello world"`. -/
theorem start_keeps_stale_result_witness :
    (runNext envNoDev (toggle init)).result = (toggle init).result ∧
    (record envNoDev (some "hello world")).crashed = true ∧
    (record envNoDev (some "hello world")).resultField = some "hello world" :=
  start_keeps_stale_result envNoDev (some "hello world") (toggle init) []
    (Or.inl rfl) rfl

/-- C3 counterexample: with the audio device unavailable, one scheduling
step after the click the session state is `recording`, not `ready`
(`Idle`), and a record thread was created and started. -/
theorem device_fail_not_idle :
    (runNext envNoDev (toggle init)).state = State.recording ∧
    (runNext envNoDev (toggle init)).sessions = 1 := by
  decide

/-- C3 amended: the device-open failure happens inside the record
thread, not in `Scribe.start`, so the start flow still completes: the
Controller transitions to `recording` (one thread created and started)
and does not return to `ready`; the thread dies at `p.open` with
`self.result` untouched and the transcription never invoked, so the
session produces no new transcript. -/
theorem device_fail_behavior (env : SessionEnv) (prev : Option String)
    (hd : env.device = DeviceOutcome.unavailable)
    (hl : env.load = LoadOutcome.ok) :
    (record env prev).crashed = true ∧
    (record env prev).modelInvoked = false ∧
    (record env prev).resultField = prev ∧
    (runNext env (toggle init)).state = State.recording ∧
    (runNext env (toggle init)).sessions = 1 := by
  refine ⟨?_, ?_, ?_, ?_, ?_⟩ <;>
    simp [record, hd, runNext, toggle, init, hl]

/-- Witness for `device_fail_behavior` at the device-unavailable
environment with previous result `"hello world"`. -/
theorem device_fail_behavior_witness :
    (record envNoDev (some "hello world")).crashed = true ∧
    (record envNoDev (some "hello world")).modelInvoked = false ∧
    (record envNoDev (some "hello world")).resultField = some "hello world" ∧
    (runNext envNoDev (toggle init)).state = State.recording ∧
    (runNext envNoDev (toggle init)).sessions = 1 :=
  device_fail_behavior envNoDev (some "hello world") rfl rfl

/-- C4 counterexample: when `from_pretrained` raises inside the start
flow, one scheduling step after the click the state is still
`processing` (`Busy`), and a further click changes nothing — the
Controller never returns the state to `ready` (`Idle`). -/
theorem load_fail_stuck_busy :
    (runNext envLoadFail (toggle init)).state = State.processing ∧
    toggle (runNext envLoadFail (toggle init)) = runNext envLoadFail (toggle init) := by
  decide

/-- C4 amended: if model initialization raises during the start flow the
exception aborts the flow: no record thread starts, no transcript or
clipboard write is produced and the model stays unloaded — but the
session state is left stranded at `processing` (`Busy`) rather than
returning to `ready` (`Idle`), and when it is `processing` every later
click is a no-op; `_start_recording_flow` has no handler, so the
exception escapes the callback to the event-loop machinery. -/
theorem load_fail_behavior (env : SessionEnv) (s : Sys) (rest : List Flow)
    (hm : s.model = none) (hl : env.load = LoadOutcome.fails)
    (hp : s.pending = Flow.startFlow :: rest) :
    (runNext env s).state = s.state ∧
    (runNext env s).sessions = s.sessions ∧
    (runNext env s).result = s.result ∧
    (runNext env s).pasted = s.pasted ∧
    (runNext env s).model = none ∧
    (runNext env s).pending = rest ∧
    (s.state = State.processing → toggle (runNext env s) = runNext env s) := by
  have hrun : runNext env s = { s with pending := rest, loadCount := s.loadCount + 1 } := by
    simp [runNext, hp, hm, hl]
  rw [hrun]
  refine ⟨rfl, rfl, rfl, rfl, hm, rfl, ?_⟩
  intro hps
  simp [toggle, hps]

/-- Witness for `load_fail_behavior` at the failing-load environment,
one click after launch. -/
theorem load_fail_behavior_witness :
    (runNext envLoadFail (toggle init)).state = (toggle init).state ∧
    (runNext envLoadFail (toggle init)).sessions = (toggle init).sessions ∧
    (runNext envLoadFail (toggle init)).result = (toggle init).result ∧
    (runNext envLoadFail (toggle init)).pasted = (toggle init).pasted ∧
    (runNext envLoadFail (toggle init)).model = none ∧
    (runNext envLoadFail (toggle init)).pending = [] ∧
    ((toggle init).state = State.processing →
      toggle (runNext envLoadFail (toggle init)) = runNext envLoadFail (toggle init)) :=
  load_fail_behavior envLoadFail (toggle init) [] rfl rfl rfl

/-- C5 counterexample: in the second session of `sAfterTwo` the
transcription call raises, yet `Scribe.stop` returns the first session's
transcript `"hello world"` (not `None`) and the finish flow writes it to
the clipboard a second time — the output sink is written for a session
whose transcription failed. -/
theorem transcription_fail_stale_paste :
    sAfterOne.result = some "hello world" ∧
    (record envCrash sAfterOne.result).crashed = true ∧
    (record envCrash sAfterOne.result).resultField = some "hello world" ∧
    sAfterTwo.pasted = ["hello world", "hello world"] := by
  decide

/-- C5 amended: a transcription error kills only the record thread, so
the host process survives: `stop`'s join returns and the finish flow
completes, returning the state to `ready` — but `self.result` keeps its
previous value, so `stop` returns the previous session's result: `None`
only when no earlier session stored a transcript, and a stale transcript
(which is then re-pasted) otherwise. -/
theorem transcription_fail_behavior (env : SessionEnv) (s : Sys) (rest : List Flow)
    (hd : env.device = DeviceOutcome.ok)
    (ht : env.transcription = TranscribeOutcome.fails)
    (hc : 1 ≤ env.chunks) (hp : s.pending = Flow.finishFlow :: rest) :
    (record env s.result).crashed = true ∧
    (record env s.result).resultField = s.result ∧
    (runNext env s).state = State.ready ∧
    (runNext env s).result = s.result := by
  have hrec := record_transcribe_fails s.result hd ht hc
  refine ⟨by rw [hrec], by rw [hrec], ?_, ?_⟩ <;> simp [runNext, hp, hrec]

/-- Witness for `transcription_fail_behavior` at the second session of
the `sAfterTwo` scenario. -/
theorem transcription_fail_behavior_witness :
    (record envCrash (toggle (runNext envCrash (toggle sAfterOne))).result).crashed = true ∧
    (record envCrash (toggle (runNext envCrash (toggle sAfterOne))).result).resultField
        = (toggle (runNext envCrash (toggle sAfterOne))).result ∧
    (runNext envCrash (toggle (runNext envCrash (toggle sAfterOne)))).state = State.ready ∧
    (runNext envCrash (toggle (runNext envCrash (toggle sAfterOne)))).result
        = (toggle (runNext envCrash (toggle sAfterOne))).result :=
  transcription_fail_behavior envCrash (toggle (runNext envCrash (toggle sAfterOne))) []
    rfl rfl (by decide) rfl

/-- C9 counterexample: in a session with one captured chunk and a
successful transcription, the transcription call sits at position 3 of
the record thread's trace while the join can complete only at position
6, after `threadExit` — so the join does not complete before the
transcription call; it completes after it. -/
theorem join_after_transcription :
    Act.transcribeCall ∈ recordTrace envHello ∧
    (recordTrace envHello).indexOf Act.transcribeCall < joinIndex envHello ∧
    ¬ joinIndex envHello ≤ (recordTrace envHello).indexOf Act.transcribeCall := by
  decide

/-- C9 amended: the record thread's trace is the capture phase (stream
open and all chunk writes), then the wav-file close, then the finish
phase; no write occurs in the finish phase, and neither the transcription
call nor the sink close occurs in the capture phase — the sink is fully
flushed and closed before transcription reads it.  The join, however,
completes only at the end of the whole trace, after the transcription
call, because transcription runs on the capture thread itself, inside
the join. -/
theorem writes_precede_transcription (env : SessionEnv)
    (hd : env.device = DeviceOutcome.ok) :
    recordTrace env = capturePhase env ++ Act.closeSink :: finishPhase env ∧
    Act.writeChunk ∉ finishPhase env ∧
    Act.transcribeCall ∉ capturePhase env ∧
    Act.closeSink ∉ capturePhase env ∧
    joinIndex env = (recordTrace env).length := by
  refine ⟨?_, ?_, ?_, ?_, rfl⟩
  · simp [recordTrace, hd, capturePhase, finishPhase]
  · unfold finishPhase
    split
    · split <;> decide
    · decide
  · simp [capturePhase, List.mem_replicate]
  · simp [capturePhase, List.mem_replicate]

/-- Witness for `writes_precede_transcription` at the happy-path
one-chunk session. -/
theorem writes_precede_transcription_witness :
    recordTrace envHello = capturePhase envHello ++ Act.closeSink :: finishPhase envHello ∧
    Act.writeChunk ∉ finishPhase envHello ∧
    Act.transcribeCall ∉ capturePhase envHello ∧
    Act.closeSink ∉ capturePhase envHello ∧
    joinIndex envHello = (recordTrace envHello).length :=
  writes_precede_transcription envHello rfl

end Rosella
